import Mathlib

/-!
Verification of the AgentForge core against its design specification.

This file gives a shallow embedding, in Lean 4, of the two specified
components of the repository:

* the Agent Execution Pipeline (`src/agentforge/agent.py`, class `Agent`), and
* the Logger Multiplexer (`src/agentforge/utils/functions/Logger.py`,
  classes `BaseLogger` and `Logger`),

together with theorems settling the specification's claims about them.

Modelling conventions:

* Python dictionaries become association lists `List (String × α)`;
  `d[k] = v` is `dictInsert` (replace in place when the key exists, append
  otherwise — Python dicts preserve insertion order), `d[k]` / `d.get(k)` is
  `alookup`.
* External collaborators (Config Source, Agent Data Provider, Prompt
  Renderer, Language Model Client, Storage Backend) are parameters of the
  model (`Env`), matching the contracts in §6 of the specification.
* Python exceptions become `Except`-style results: a stage that lets an
  exception escape returns `.error` carrying the state at the fault (Python
  mutations performed before the raise survive it).
* `str.strip()` is `pyStrip`, `str.lower()` is `pyLower`, written as
  structural recursion over the character list so that concrete runs can be
  evaluated inside proofs.
-/

/-- Whitespace test used by `pyStrip`, covering the blank characters Python's
`str.strip()` removes that occur in this code base (space, tab, newline,
carriage return). -/
def isWs (c : Char) : Bool := c = ' ' || c = '\t' || c = '\n' || c = '\r'

/-- Embedding of Python `str.strip()`: drop leading and trailing whitespace. -/
def pyStrip (s : String) : String :=
  ⟨((s.data.dropWhile isWs).reverse.dropWhile isWs).reverse⟩

/-- Lower-case one ASCII character, as Python `str.lower()` does on the
ASCII identifiers appearing in this code base. -/
def pyLowerChar (c : Char) : Char :=
  if 65 ≤ c.toNat ∧ c.toNat ≤ 90 then Char.ofNat (c.toNat + 32) else c

/-- Embedding of Python `str.lower()`. -/
def pyLower (s : String) : String := ⟨s.data.map pyLowerChar⟩

/-- Dictionary lookup on an association list (Python `d[k]` / `d.get(k)`):
the first binding of the key, if any. -/
def alookup {α : Type} (k : String) : List (String × α) → Option α
  | [] => none
  | (a, v) :: rest => if k = a then some v else alookup k rest

/-- Dictionary update on an association list (Python `d[k] = v`): replace the
value in place when the key is present, append the new binding otherwise,
preserving insertion order as Python dicts do. -/
def dictInsert {α : Type} (k : String) (v : α) (m : List (String × α)) :
    List (String × α) :=
  match alookup k m with
  | some _ => m.map fun p => if p.1 = k then (k, v) else p
  | none => m ++ [(k, v)]

/-! ## Logging level codes

Numeric severity codes of Python's `logging` module. -/

/-- Python `logging.DEBUG`. -/
def Logging.DEBUG : Nat := 10

/-- Python `logging.INFO`. -/
def Logging.INFO : Nat := 20

/-- Python `logging.WARNING`. -/
def Logging.WARNING : Nat := 30

/-- Python `logging.ERROR`. -/
def Logging.ERROR : Nat := 40

/-- Python `logging.CRITICAL`. -/
def Logging.CRITICAL : Nat := 50

/-- Embedding of `BaseLogger._get_level_code`: the source builds
`level_dict` over the five level names and returns
`level_dict.get(level.lower(), logging.INFO)` — an unrecognized name falls
back to the `INFO` code. -/
def BaseLogger.get_level_code (level : String) : Nat :=
  match pyLower level with
  | "debug" => Logging.DEBUG
  | "info" => Logging.INFO
  | "warning" => Logging.WARNING
  | "error" => Logging.ERROR
  | "critical" => Logging.CRITICAL
  | _ => Logging.INFO

/-- Observable outcome of one `BaseLogger.log_msg` call: which logging call
the dispatch performed (message, severity rank, whether a secondary
exception-context record is emitted, whether the in-flight fault is
re-raised), or the `ValueError` branch for an invalid level. -/
inductive LogOutcome where
  | emitted (msg : String) (rank : Nat) (exceptionRecord : Bool) (reraises : Bool)
  | invalidLevel (level : String)
deriving DecidableEq

/-- Embedding of `BaseLogger.log_msg`: convert the level name to a code with
`_get_level_code`, then dispatch on the code. `error` additionally logs an
exception record; `critical` additionally logs an exception record and
re-raises; any other code falls to the `ValueError` branch. -/
def BaseLogger.log_msg (msg level : String) : LogOutcome :=
  let code := BaseLogger.get_level_code level
  if code = Logging.DEBUG then .emitted msg Logging.DEBUG false false
  else if code = Logging.INFO then .emitted msg Logging.INFO false false
  else if code = Logging.WARNING then .emitted msg Logging.WARNING false false
  else if code = Logging.ERROR then .emitted msg Logging.ERROR true false
  else if code = Logging.CRITICAL then .emitted msg Logging.CRITICAL true true
  else .invalidLevel level

/-- A physical sink (file handler or console handler). `hid` is the object
identity of the underlying Python handler object — fresh handlers get fresh
ids from the registry's allocator — and `hlevel` the handler's own
threshold, set once at creation. -/
structure Handler where
  hid : Nat
  hlevel : Nat
deriving DecidableEq

/-- Process-wide logging state: the two class-level registries of
`BaseLogger` (`file_handlers` keyed by log-file name, `console_handlers`
keyed by logger name), plus the state of Python's `logging` module that the
source manipulates — `logging.getLogger(name)` returns one logger object
per name, carrying its attached handler list and its level. `nextId`
allocates identities for newly created handler objects. -/
structure LoggerRegistry where
  file_handlers : List (String × Handler)
  console_handlers : List (String × Handler)
  logger_handlers : List (String × List Handler)
  logger_levels : List (String × Nat)
  nextId : Nat
deriving DecidableEq

/-- The registry before any logger has been constructed. -/
def emptyRegistry : LoggerRegistry :=
  { file_handlers := [], console_handlers := [], logger_handlers := [],
    logger_levels := [], nextId := 0 }

/-- Embedding of `logging.Logger.addHandler` on the named logger: append the
handler unless that same handler object is already attached (CPython
deduplicates by identity). -/
def addHandler (name : String) (h : Handler) (s : LoggerRegistry) :
    LoggerRegistry :=
  let hs := (alookup name s.logger_handlers).getD []
  if h ∈ hs then s
  else { s with logger_handlers := dictInsert name (hs ++ [h]) s.logger_handlers }

/-- Embedding of `logging.Logger.setLevel` on the named logger. -/
def setLoggerLevel (name : String) (level : Nat) (s : LoggerRegistry) :
    LoggerRegistry :=
  { s with logger_levels := dictInsert name level s.logger_levels }

/-- Embedding of `BaseLogger._setup_file_handler`: if a file handler for
this file name already exists in the class-level dictionary, attach that
existing handler to the logger; otherwise create a fresh handler at the
given level, attach it, and record it in the dictionary. (The source also
creates the log folder on disk; filesystem effects are outside this model.) -/
def BaseLogger.setup_file_handler (name log_file : String) (level : Nat)
    (s : LoggerRegistry) : LoggerRegistry :=
  match alookup log_file s.file_handlers with
  | some fh => addHandler name fh s
  | none =>
    let fh : Handler := { hid := s.nextId, hlevel := level }
    let s := { s with nextId := s.nextId + 1,
                      file_handlers := dictInsert log_file fh s.file_handlers }
    addHandler name fh s

/-- Embedding of `BaseLogger._setup_console_handler`: same reuse-or-create
logic as the file handler, keyed by the logger's name. -/
def BaseLogger.setup_console_handler (name : String) (level : Nat)
    (s : LoggerRegistry) : LoggerRegistry :=
  match alookup name s.console_handlers with
  | some ch => addHandler name ch s
  | none =>
    let ch : Handler := { hid := s.nextId, hlevel := level }
    let s := { s with nextId := s.nextId + 1,
                      console_handlers := dictInsert name ch s.console_handlers }
    addHandler name ch s

/-- Embedding of `BaseLogger.__init__`: read the global logging-enabled
flag; when enabled, set up the file handler, then the console handler, then
the logger's level; when disabled, only set the logger's level to
`logging.CRITICAL + 1` — the handler setup calls are not made. -/
def BaseLogger.init (logging_enabled : Bool) (name log_file log_level : String)
    (s : LoggerRegistry) : LoggerRegistry :=
  let level := BaseLogger.get_level_code log_level
  if logging_enabled then
    setLoggerLevel name level
      (BaseLogger.setup_console_handler name level
        (BaseLogger.setup_file_handler name log_file level s))
  else
    setLoggerLevel name (Logging.CRITICAL + 1) s

/-- Whether a record of severity `rank` on the named logger reaches at least
one of the sinks this registry manages: Python's `logging` first compares
the rank against the logger's effective level, then each attached handler
filters by its own level. A logger whose level was never set inherits the
root default (`WARNING`). -/
def emits (s : LoggerRegistry) (name : String) (rank : Nat) : Bool :=
  let lvl := (alookup name s.logger_levels).getD Logging.WARNING
  decide (lvl ≤ rank) &&
    ((alookup name s.logger_handlers).getD []).any fun h => h.hlevel ≤ rank

/-- Observable outcome of one `Logger.log` call: the ordered list of
(channel, dispatch outcome) pairs it routed the message to, or the
`KeyError` raised by `self.loggers[logger_type]` for an unknown channel. -/
inductive LogResult where
  | routed (entries : List (String × LogOutcome))
  | keyError (channel : String)
deriving DecidableEq

/-- Channel names a `Logger` instance owns: `Logger.__init__` builds one
`BaseLogger` per entry of the configured `Logging.Files` mapping, keyed by
the entry's name. -/
def Logger.channels (filesConfig : List (String × String)) : List String :=
  filesConfig.map Prod.fst

/-- Embedding of `Logger.log`: prefix the message with the caller identity;
for the special value `'all'`, route to every configured channel in order;
otherwise index `self.loggers` with the channel name — a `KeyError` when the
name is not a configured channel. -/
def Logger.log (filesConfig : List (String × String))
    (caller msg level channel : String) : LogResult :=
  let m := "[" ++ caller ++ "] " ++ msg
  if channel = "all" then
    .routed ((Logger.channels filesConfig).map fun n => (n, BaseLogger.log_msg m level))
  else
    match alookup channel filesConfig with
    | some _ => .routed [(channel, BaseLogger.log_msg m level)]
    | none => .keyError channel

/-! ## Agent Execution Pipeline

Embedding of `src/agentforge/agent.py`, class `Agent`, with no stage
overridden (the default agent: `load_agent_type_data`, `load_additional_data`,
`process_data` and `parse_result` are the `pass` placeholders of the base
class). -/

/-- A prompt template, as handed to the Prompt Renderer. -/
abbrev Template := String

/-- A value stored in the agent's working-data dictionary `self.data`:
either a plain value, the parameters sub-dictionary, or the prompt-template
sub-dictionary. -/
inductive DVal where
  | vstr (s : String)
  | vparams (m : List (String × String))
  | vprompts (m : List (String × Template))
deriving DecidableEq

/-- The working-data dictionary `self.data`. -/
abbrev DataMap := List (String × DVal)

/-- The record returned by the Agent Data Provider
(`functions.agent_utils.load_agent_data`): parameters, prompt templates and
an optional persona, per the provider contract of §6 of the specification
(the bound model and storage handles are behaviour, modelled in `Env`). -/
structure AgentData where
  params : List (String × String)
  prompts : List (String × Template)
  persona : Option (List (String × String))
deriving DecidableEq

/-- The external collaborators of one run, per the contracts in §6 of the
specification: whether the Agent Data Provider call succeeds and what it
returns, the agent's name, the two Prompt Renderer entry points
(`handle_prompt_template` returning `none` for a falsy — absent or empty —
template, and `render_prompt_template`), the Language Model Client
(`generate_text`, which may fault), and whether the Storage Backend call
(`save_memory`) succeeds. -/
structure Env where
  loadOk : Bool
  agentData : AgentData
  agent_name : String
  handleTemplate : Template → DataMap → Option Template
  renderTemplate : Template → DataMap → Template
  genText : Option (List String) → List (String × String) → Except String String
  saveOk : Bool

/-- The mutable attributes of one `Agent` during a run, plus observation
traces: `llmText` records the raw (untrimmed) text a successful client call
returned, `saveCalls` the records passed to `storage.save_memory`,
`stagesRun` the pipeline stages entered, and `errorLog` the error-severity
messages logged by the catch branches. -/
structure AgentState where
  agent_data : Option AgentData
  data : Option DataMap
  prompt : Option (List String)
  result : Option String
  output : Option String
  llmText : Option String
  saveCalls : List (Option String)
  stagesRun : List String
  errorLog : List String
deriving DecidableEq

/-- The agent's state when `run` begins: the data attributes are the `None`
set by `__init__`. -/
def Agent.initState : AgentState :=
  { agent_data := none, data := none, prompt := none, result := none,
    output := none, llmText := none, saveCalls := [], stagesRun := [],
    errorLog := [] }

/-- Result of a pipeline stage: `.ok` for normal completion, `.error` when
an exception escapes the stage, carrying the state at the fault (mutations
made before the raise survive it). -/
abbrev StageResult := Except AgentState AgentState

/-- Embedding of `Agent.load_agent_data`: reload the provider record; on
success, rebuild `self.data` from copies of the params and prompts
sub-dictionaries and merge the keyword arguments over it; any fault is
caught, logged, and clears both `agent_data` and `data` to absent.
(The `.copy()` calls of the source are implicit here: the model's data is
immutable, so the snapshot is automatic.) -/
def Agent.load_agent_data (env : Env) (kwargs : List (String × DVal))
    (st : AgentState) : AgentState :=
  if env.loadOk then
    let d0 : DataMap := [("params", DVal.vparams env.agentData.params),
                         ("prompts", DVal.vprompts env.agentData.prompts)]
    let d1 := kwargs.foldl (fun acc kv => dictInsert kv.1 kv.2 acc) d0
    { st with agent_data := some env.agentData, data := some d1 }
  else
    { st with agent_data := none, data := none,
              errorLog := st.errorLog ++ ["Error loading agent data"] }

/-- Embedding of `Agent.load_persona_data` (no internal try/except): read
`self.agent_data.get('persona', None)` — an `AttributeError` escapes when
`agent_data` is `None` — and, when the persona is truthy (present and
non-empty), merge its pairs into `self.data` with lower-cased keys — a
`TypeError` escapes when `data` is `None`. -/
def Agent.load_persona_data (st : AgentState) : StageResult :=
  match st.agent_data with
  | none => .error st
  | some ad =>
    match ad.persona with
    | none => .ok st
    | some p =>
      if p = [] then .ok st
      else
        match st.data with
        | none => .error st
        | some d =>
          let d2 := p.foldl
            (fun acc kv => dictInsert (pyLower kv.1) (DVal.vstr kv.2) acc) d
          .ok { st with data := some d2 }

/-- Embedding of `Agent.load_data`: `load_agent_data`, then
`load_persona_data`, then the two extension points, which default to no-ops.
The stage itself has no try/except, so a fault in the persona sub-step
escapes it. -/
def Agent.load_data (env : Env) (kwargs : List (String × DVal))
    (st : AgentState) : StageResult :=
  Agent.load_persona_data
    (Agent.load_agent_data env kwargs
      { st with stagesRun := st.stagesRun ++ ["load_data"] })

/-- Embedding of `Agent.process_data`: the `pass` placeholder. -/
def Agent.process_data (st : AgentState) : AgentState :=
  { st with stagesRun := st.stagesRun ++ ["process_data"] }

/-- Embedding of `Agent.generate_prompt`: iterate
`self.data['prompts'].values()` in order, keep only templates for which
`handle_prompt_template` returns a truthy value, rendering each kept one
with `render_prompt_template`; the collected list becomes `self.prompt`.
Any fault (in particular indexing `data` when it is `None`, or when the
`'prompts'` entry is not a template dictionary) is caught, logged, and
clears `prompt` to absent. -/
def Agent.generate_prompt (env : Env) (st : AgentState) : AgentState :=
  let st := { st with stagesRun := st.stagesRun ++ ["generate_prompt"] }
  match st.data with
  | none => { st with prompt := none,
                      errorLog := st.errorLog ++ ["Error generating prompt"] }
  | some d =>
    match alookup "prompts" d with
    | some (DVal.vprompts ps) =>
      let rendered := (ps.map Prod.snd).foldl (fun acc t =>
        match env.handleTemplate t d with
        | some tpl => acc ++ [env.renderTemplate tpl d]
        | none => acc) []
      { st with prompt := some rendered }
    | _ => { st with prompt := none,
                     errorLog := st.errorLog ++ ["Error generating prompt"] }

/-- Embedding of `Agent.run_llm`: fetch the model handle from `agent_data`
(a fault when `agent_data` is `None` is caught and clears `result`); then
`params = self.agent_data.get("params", {})` aliases the provider record's
parameter dictionary, so `params['agent_name'] = self.agent_name` mutates
it in place; then call `generate_text` with the prompt list and the mutated
parameters, strip the returned text and store it in `result`. A client
fault is caught, logged, and clears `result` to absent (the parameter
mutation, made before the call, survives). -/
def Agent.run_llm (env : Env) (st : AgentState) : AgentState :=
  let st := { st with stagesRun := st.stagesRun ++ ["run_llm"] }
  match st.agent_data with
  | none => { st with result := none,
                      errorLog := st.errorLog ++ ["Error running LLM"] }
  | some ad =>
    let params := dictInsert "agent_name" env.agent_name ad.params
    let st := { st with agent_data := some { ad with params := params } }
    match env.genText st.prompt params with
    | .ok txt => { st with result := some (pyStrip txt), llmText := some txt }
    | .error _ => { st with result := none,
                            errorLog := st.errorLog ++ ["Error running LLM"] }

/-- Embedding of `Agent.parse_result`: the `pass` placeholder. -/
def Agent.parse_result (st : AgentState) : AgentState :=
  { st with stagesRun := st.stagesRun ++ ["parse_result"] }

/-- Embedding of `Agent.save_result`: call
`storage.save_memory(collection_name='Results', data=[self.result])` — the
attempt is recorded with the current `result` as the record — and catch,
log and swallow any storage fault. -/
def Agent.save_result (env : Env) (st : AgentState) : AgentState :=
  let st := { st with stagesRun := st.stagesRun ++ ["save_result"],
                      saveCalls := st.saveCalls ++ [st.result] }
  if env.saveOk then st
  else { st with errorLog := st.errorLog ++ ["Error saving result"] }

/-- Embedding of `Agent.build_output`: `self.output = self.result`. -/
def Agent.build_output (st : AgentState) : AgentState :=
  { st with stagesRun := st.stagesRun ++ ["build_output"],
            output := st.result }

/-- Embedding of `Agent.run`: execute the seven stages in order inside one
try/except; an exception escaping any stage aborts the run, is logged, and
makes `run` return `None`; otherwise `run` returns `self.output`. -/
def Agent.run (env : Env) (kwargs : List (String × DVal)) (st0 : AgentState) :
    AgentState × Option String :=
  match Agent.load_data env kwargs st0 with
  | .error st => ({ st with errorLog := st.errorLog ++ ["Error running agent"] }, none)
  | .ok st1 =>
    let st7 :=
      Agent.build_output
        (Agent.save_result env
          (Agent.parse_result
            (Agent.run_llm env
              (Agent.generate_prompt env
                (Agent.process_data st1)))))
    (st7, st7.output)

/-! ## Concrete fixtures

Small concrete environments used to exercise the model. -/

/-- A well-formed provider record: one parameter, two prompt templates, a
persona with one pair. -/
def demoData : AgentData :=
  { params := [("temperature", "0.8")],
    prompts := [("system", "sys-tpl"), ("user", "user-tpl")],
    persona := some [("Name", "Bot")] }

/-- A healthy environment: provider succeeds, the renderer keeps the first
template and drops the second, the client answers with padded text, the
storage accepts writes. -/
def demoEnv : Env :=
  { loadOk := true, agentData := demoData, agent_name := "Agent",
    handleTemplate := fun t _ => if t = "user-tpl" then none else some t,
    renderTemplate := fun t _ => "R:" ++ t,
    genText := fun _ _ => .ok "  hello world \n", saveOk := true }

/-- A provider environment whose client always faults. -/
def demoEnvErr : Env := { demoEnv with genText := fun _ _ => Except.error "boom" }

/-- A provider environment whose agent-data reload faults. -/
def demoEnvNoLoad : Env := { demoEnv with loadOk := false }

/-- A provider environment whose storage backend faults on writes. -/
def demoEnvNoSave : Env := { demoEnv with saveOk := false }

/-- A working-data dictionary holding two prompt templates. -/
def scenarioData : DataMap :=
  [("params", DVal.vparams []),
   ("prompts", DVal.vprompts [("one", "t1"), ("two", "t2")])]

/-- An environment realizing the specification's rendering scenario: the
renderer keeps template `"t1"` and resolves it to the text `"A"`, and
resolves template `"t2"` to absent. -/
def scenarioEnv : Env :=
  { loadOk := true,
    agentData := { params := [], prompts := [("one", "t1"), ("two", "t2")],
                   persona := none },
    agent_name := "Agent",
    handleTemplate := fun t _ => if t = "t1" then some t else none,
    renderTemplate := fun _ _ => "A",
    genText := fun _ _ => Except.ok "ok", saveOk := true }

/-- An agent state whose working data is `scenarioData`. -/
def scenarioState : AgentState := { Agent.initState with data := some scenarioData }

/-! ## Stage frame lemmas

Field-level facts about each pipeline stage, used to compose the run-level
theorems. -/

@[simp] theorem process_data_agent_data (st : AgentState) :
    (Agent.process_data st).agent_data = st.agent_data := rfl

@[simp] theorem process_data_data (st : AgentState) :
    (Agent.process_data st).data = st.data := rfl

@[simp] theorem process_data_prompt (st : AgentState) :
    (Agent.process_data st).prompt = st.prompt := rfl

@[simp] theorem process_data_result (st : AgentState) :
    (Agent.process_data st).result = st.result := rfl

@[simp] theorem process_data_llmText (st : AgentState) :
    (Agent.process_data st).llmText = st.llmText := rfl

@[simp] theorem process_data_saveCalls (st : AgentState) :
    (Agent.process_data st).saveCalls = st.saveCalls := rfl

@[simp] theorem process_data_errorLog (st : AgentState) :
    (Agent.process_data st).errorLog = st.errorLog := rfl

@[simp] theorem process_data_stagesRun (st : AgentState) :
    (Agent.process_data st).stagesRun = st.stagesRun ++ ["process_data"] := rfl

@[simp] theorem parse_result_agent_data (st : AgentState) :
    (Agent.parse_result st).agent_data = st.agent_data := rfl

@[simp] theorem parse_result_result (st : AgentState) :
    (Agent.parse_result st).result = st.result := rfl

@[simp] theorem parse_result_llmText (st : AgentState) :
    (Agent.parse_result st).llmText = st.llmText := rfl

@[simp] theorem parse_result_saveCalls (st : AgentState) :
    (Agent.parse_result st).saveCalls = st.saveCalls := rfl

@[simp] theorem parse_result_errorLog (st : AgentState) :
    (Agent.parse_result st).errorLog = st.errorLog := rfl

@[simp] theorem parse_result_stagesRun (st : AgentState) :
    (Agent.parse_result st).stagesRun = st.stagesRun ++ ["parse_result"] := rfl

@[simp] theorem build_output_output (st : AgentState) :
    (Agent.build_output st).output = st.result := rfl

@[simp] theorem build_output_result (st : AgentState) :
    (Agent.build_output st).result = st.result := rfl

@[simp] theorem build_output_agent_data (st : AgentState) :
    (Agent.build_output st).agent_data = st.agent_data := rfl

@[simp] theorem build_output_llmText (st : AgentState) :
    (Agent.build_output st).llmText = st.llmText := rfl

@[simp] theorem build_output_saveCalls (st : AgentState) :
    (Agent.build_output st).saveCalls = st.saveCalls := rfl

@[simp] theorem build_output_errorLog (st : AgentState) :
    (Agent.build_output st).errorLog = st.errorLog := rfl

@[simp] theorem build_output_stagesRun (st : AgentState) :
    (Agent.build_output st).stagesRun = st.stagesRun ++ ["build_output"] := rfl

@[simp] theorem save_result_result (env : Env) (st : AgentState) :
    (Agent.save_result env st).result = st.result := by
  unfold Agent.save_result; split <;> rfl

@[simp] theorem save_result_agent_data (env : Env) (st : AgentState) :
    (Agent.save_result env st).agent_data = st.agent_data := by
  unfold Agent.save_result; split <;> rfl

@[simp] theorem save_result_llmText (env : Env) (st : AgentState) :
    (Agent.save_result env st).llmText = st.llmText := by
  unfold Agent.save_result; split <;> rfl

@[simp] theorem save_result_saveCalls (env : Env) (st : AgentState) :
    (Agent.save_result env st).saveCalls = st.saveCalls ++ [st.result] := by
  unfold Agent.save_result; split <;> rfl

@[simp] theorem save_result_stagesRun (env : Env) (st : AgentState) :
    (Agent.save_result env st).stagesRun = st.stagesRun ++ ["save_result"] := by
  unfold Agent.save_result; split <;> rfl

theorem save_result_errorLog_of_fault (env : Env) (st : AgentState)
    (h : env.saveOk = false) :
    (Agent.save_result env st).errorLog = st.errorLog ++ ["Error saving result"] := by
  unfold Agent.save_result; rw [h]; rfl

theorem save_result_errorLog_mono (env : Env) (st : AgentState) (x : String)
    (hx : x ∈ st.errorLog) : x ∈ (Agent.save_result env st).errorLog := by
  unfold Agent.save_result; split <;> simp [hx]

@[simp] theorem generate_prompt_agent_data (env : Env) (st : AgentState) :
    (Agent.generate_prompt env st).agent_data = st.agent_data := by
  unfold Agent.generate_prompt; dsimp only; repeat' split
  all_goals rfl

@[simp] theorem generate_prompt_result (env : Env) (st : AgentState) :
    (Agent.generate_prompt env st).result = st.result := by
  unfold Agent.generate_prompt; dsimp only; repeat' split
  all_goals rfl

@[simp] theorem generate_prompt_output (env : Env) (st : AgentState) :
    (Agent.generate_prompt env st).output = st.output := by
  unfold Agent.generate_prompt; dsimp only; repeat' split
  all_goals rfl

@[simp] theorem generate_prompt_llmText (env : Env) (st : AgentState) :
    (Agent.generate_prompt env st).llmText = st.llmText := by
  unfold Agent.generate_prompt; dsimp only; repeat' split
  all_goals rfl

@[simp] theorem generate_prompt_saveCalls (env : Env) (st : AgentState) :
    (Agent.generate_prompt env st).saveCalls = st.saveCalls := by
  unfold Agent.generate_prompt; dsimp only; repeat' split
  all_goals rfl

@[simp] theorem generate_prompt_stagesRun (env : Env) (st : AgentState) :
    (Agent.generate_prompt env st).stagesRun = st.stagesRun ++ ["generate_prompt"] := by
  unfold Agent.generate_prompt; dsimp only; repeat' split
  all_goals rfl

@[simp] theorem run_llm_output (env : Env) (st : AgentState) :
    (Agent.run_llm env st).output = st.output := by
  unfold Agent.run_llm; dsimp only; repeat' split
  all_goals rfl

@[simp] theorem run_llm_prompt (env : Env) (st : AgentState) :
    (Agent.run_llm env st).prompt = st.prompt := by
  unfold Agent.run_llm; dsimp only; repeat' split
  all_goals rfl

@[simp] theorem run_llm_saveCalls (env : Env) (st : AgentState) :
    (Agent.run_llm env st).saveCalls = st.saveCalls := by
  unfold Agent.run_llm; dsimp only; repeat' split
  all_goals rfl

@[simp] theorem run_llm_stagesRun (env : Env) (st : AgentState) :
    (Agent.run_llm env st).stagesRun = st.stagesRun ++ ["run_llm"] := by
  unfold Agent.run_llm; dsimp only; repeat' split
  all_goals rfl

/-- When `agent_data` holds a provider record and the client answers, the
infer stage stores the raw client text and its stripped form, and writes the
`agent_name` parameter back into the provider record's parameter map. -/
theorem run_llm_ok_fields (env : Env) (st : AgentState)
    (g : Option (List String) → List (String × String) → String)
    (hg : env.genText = fun p q => Except.ok (g p q))
    (ad : AgentData) (had : st.agent_data = some ad) :
    (Agent.run_llm env st).result =
      some (pyStrip (g st.prompt (dictInsert "agent_name" env.agent_name ad.params))) ∧
    (Agent.run_llm env st).llmText =
      some (g st.prompt (dictInsert "agent_name" env.agent_name ad.params)) ∧
    (Agent.run_llm env st).agent_data =
      some { ad with params := dictInsert "agent_name" env.agent_name ad.params } ∧
    (Agent.run_llm env st).errorLog = st.errorLog := by
  unfold Agent.run_llm
  dsimp only
  rw [had, hg]
  simp

/-- When `agent_data` holds a provider record and the client faults, the
infer stage clears `result`, leaves `llmText` untouched, logs the fault, and
still writes the `agent_name` parameter back into the provider record. -/
theorem run_llm_err_fields (env : Env) (st : AgentState)
    (e : Option (List String) → List (String × String) → String)
    (hg : env.genText = fun p q => Except.error (e p q))
    (ad : AgentData) (had : st.agent_data = some ad) :
    (Agent.run_llm env st).result = none ∧
    (Agent.run_llm env st).llmText = st.llmText ∧
    (Agent.run_llm env st).agent_data =
      some { ad with params := dictInsert "agent_name" env.agent_name ad.params } ∧
    (Agent.run_llm env st).errorLog = st.errorLog ++ ["Error running LLM"] := by
  unfold Agent.run_llm
  dsimp only
  rw [had, hg]
  simp

/-- When the Agent Data Provider succeeds, the load stage completes
normally: `agent_data` holds the provider record, `data` holds a working
dictionary, and every other field of the state is untouched. -/
theorem load_data_ok (env : Env) (kwargs : List (String × DVal)) (st : AgentState)
    (h : env.loadOk = true) :
    ∃ st1, Agent.load_data env kwargs st = .ok st1 ∧
      st1.agent_data = some env.agentData ∧
      st1.prompt = st.prompt ∧ st1.result = st.result ∧ st1.output = st.output ∧
      st1.llmText = st.llmText ∧ st1.saveCalls = st.saveCalls ∧
      st1.stagesRun = st.stagesRun ++ ["load_data"] ∧ st1.errorLog = st.errorLog := by
  unfold Agent.load_data Agent.load_agent_data Agent.load_persona_data
  rw [if_pos h]
  dsimp only
  rcases hp : env.agentData.persona with _ | p
  · exact ⟨_, rfl, by simp⟩
  · by_cases hpe : p = []
    · simp only [hpe, if_pos rfl]
      exact ⟨_, rfl, by simp⟩
    · simp only [if_neg hpe]
      exact ⟨_, rfl, by simp⟩

/-- When `agent_data` holds a provider record, the infer stage writes the
`agent_name` parameter back into that record's parameter map, whether or not
the client call succeeds (the mutation precedes the call). -/
theorem run_llm_agent_data_of_some (env : Env) (st : AgentState)
    (ad : AgentData) (had : st.agent_data = some ad) :
    (Agent.run_llm env st).agent_data =
      some { ad with params := dictInsert "agent_name" env.agent_name ad.params } := by
  unfold Agent.run_llm
  dsimp only
  rw [had]
  dsimp only
  split <;> simp

/-- The storage flag is consulted only by the persist stage, and there only
to decide whether to log: the value `run` returns does not depend on it. -/
theorem run_saveOk_output_eq (env : Env) (b : Bool)
    (kwargs : List (String × DVal)) (st0 : AgentState) :
    (Agent.run { env with saveOk := b } kwargs st0).2 =
      (Agent.run env kwargs st0).2 := by
  have hld : Agent.load_data { env with saveOk := b } kwargs st0 =
      Agent.load_data env kwargs st0 := rfl
  have hgp : ∀ st, Agent.generate_prompt { env with saveOk := b } st =
      Agent.generate_prompt env st := fun _ => rfl
  have hrl : ∀ st, Agent.run_llm { env with saveOk := b } st =
      Agent.run_llm env st := fun _ => rfl
  unfold Agent.run
  rw [hld]
  cases Agent.load_data env kwargs st0 with
  | error st => rfl
  | ok st1 =>
    dsimp only
    rw [hgp, hrl]
    simp

/-- Full characterization of a run with a successful provider load and a
responsive client: the output is the stripped client text, the persist stage
records it, every stage runs, the provider record gains the `agent_name`
parameter, and a storage fault surfaces only in the error log. -/
theorem run_ok_spec (env : Env) (kwargs : List (String × DVal))
    (g : Option (List String) → List (String × String) → String)
    (hload : env.loadOk = true)
    (hresp : env.genText = fun p q => Except.ok (g p q)) :
    ∃ raw : String,
      (Agent.run env kwargs Agent.initState).1.llmText = some raw ∧
      (Agent.run env kwargs Agent.initState).1.result = some (pyStrip raw) ∧
      (Agent.run env kwargs Agent.initState).2 = some (pyStrip raw) ∧
      (Agent.run env kwargs Agent.initState).1.saveCalls = [some (pyStrip raw)] ∧
      (Agent.run env kwargs Agent.initState).1.agent_data =
        some { env.agentData with
               params := dictInsert "agent_name" env.agent_name env.agentData.params } ∧
      (Agent.run env kwargs Agent.initState).1.stagesRun =
        ["load_data", "process_data", "generate_prompt", "run_llm",
         "parse_result", "save_result", "build_output"] ∧
      (env.saveOk = false →
        "Error saving result" ∈ (Agent.run env kwargs Agent.initState).1.errorLog) := by
  obtain ⟨st1, heq, had, hpr, hres, hout, hllm, hsc, hsr, hel⟩ :=
    load_data_ok env kwargs Agent.initState hload
  unfold Agent.run
  rw [heq]
  dsimp only
  have had3 : (Agent.generate_prompt env (Agent.process_data st1)).agent_data =
      some env.agentData := by simp [had]
  obtain ⟨h1, h2, h3, h4⟩ := run_llm_ok_fields env _ g hresp _ had3
  refine ⟨g (Agent.generate_prompt env (Agent.process_data st1)).prompt
            (dictInsert "agent_name" env.agent_name env.agentData.params),
          ?_, ?_, ?_, ?_, ?_, ?_, ?_⟩
  · simp [h2]
  · simp [h1]
  · simp [h1]
  · simp [h1, hsc, Agent.initState]
  · simp [h3, had3, had]
  · simp [hsr, Agent.initState]
  · intro hsave
    simp [save_result_errorLog_of_fault _ _ hsave]

/-- A level name that lower-cases to none of the five recognized names takes
`level_dict.get`'s default: the `INFO` code. -/
theorem get_level_code_of_unrecognized (level : String)
    (h : pyLower level ∉ ["debug", "info", "warning", "error", "critical"]) :
    BaseLogger.get_level_code level = Logging.INFO := by
  unfold BaseLogger.get_level_code
  split <;> simp_all

/-! ## Claims about the Logger Multiplexer -/

/-- C4 (counterexample): the level name `"verbose"` is not one of the five
recognized names, yet `log_msg` logs the message at the `info` rank instead
of failing with an invalid-level error — `_get_level_code` silently defaults
unknown names to `logging.INFO`, so the `ValueError` branch is unreachable. -/
theorem C4_counterexample :
    pyLower "verbose" ∉ ["debug", "info", "warning", "error", "critical"] ∧
    BaseLogger.log_msg "boot" "verbose" =
      LogOutcome.emitted "boot" Logging.INFO false false ∧
    BaseLogger.log_msg "boot" "verbose" ≠ LogOutcome.invalidLevel "verbose" := by
  decide

/-- C4 (amended): for every level-name string that is not one of debug,
info, warning, error, critical (after lower-casing), `log_msg` maps the name
to the `info` severity rank and logs the message at `info` — no invalid-level
error is raised. -/
theorem C4_unrecognized_level_logs_at_info (msg level : String)
    (h : pyLower level ∉ ["debug", "info", "warning", "error", "critical"]) :
    BaseLogger.log_msg msg level = LogOutcome.emitted msg Logging.INFO false false := by
  unfold BaseLogger.log_msg
  rw [get_level_code_of_unrecognized level h]
  simp [Logging.DEBUG, Logging.INFO]

/-- C4 (witness): instantiation of the amended claim at the unrecognized
level name `"trace"`. -/
theorem C4_witness :
    pyLower "trace" ∉ ["debug", "info", "warning", "error", "critical"] ∧
    BaseLogger.log_msg "m" "trace" = LogOutcome.emitted "m" Logging.INFO false false :=
  ⟨by decide, C4_unrecognized_level_logs_at_info "m" "trace" (by decide)⟩

/-- C5: constructing two `BaseLogger` instances for the same channel name
and file name (as two `Logger` instances referencing the same channel do)
creates exactly one file sink keyed by the file name and one console sink
keyed by the channel name; the second construction reuses both existing sink
objects — it allocates nothing (`nextId` unchanged) and leaves both
registries unchanged — and the channel's attached-handler list holds each
sink exactly once, so writes through either instance go to one stream with
no duplicated lines. -/
theorem C5_sink_dedup (name file l1 l2 : String) :
    (BaseLogger.init true name file l1 emptyRegistry).file_handlers =
      [(file, ⟨0, BaseLogger.get_level_code l1⟩)] ∧
    (BaseLogger.init true name file l1 emptyRegistry).console_handlers =
      [(name, ⟨1, BaseLogger.get_level_code l1⟩)] ∧
    (BaseLogger.init true name file l2
        (BaseLogger.init true name file l1 emptyRegistry)).file_handlers =
      (BaseLogger.init true name file l1 emptyRegistry).file_handlers ∧
    (BaseLogger.init true name file l2
        (BaseLogger.init true name file l1 emptyRegistry)).console_handlers =
      (BaseLogger.init true name file l1 emptyRegistry).console_handlers ∧
    (BaseLogger.init true name file l2
        (BaseLogger.init true name file l1 emptyRegistry)).nextId =
      (BaseLogger.init true name file l1 emptyRegistry).nextId ∧
    (BaseLogger.init true name file l2
        (BaseLogger.init true name file l1 emptyRegistry)).logger_handlers =
      [(name, [⟨0, BaseLogger.get_level_code l1⟩, ⟨1, BaseLogger.get_level_code l1⟩])] := by
  simp [BaseLogger.init, BaseLogger.setup_file_handler, BaseLogger.setup_console_handler,
        addHandler, setLoggerLevel, dictInsert, alookup, emptyRegistry]

/-- C6 (counterexample): with logging enabled, constructing the channel
creates a file sink, but with logging globally disabled the construction
creates no file sink, no console sink, and allocates nothing — the sink
construction logic IS skipped, contradicting the claim's "without skipping
the sink construction logic". -/
theorem C6_counterexample :
    (BaseLogger.init true "AgentForge" "AgentForge.log" "error" emptyRegistry).file_handlers ≠ [] ∧
    (BaseLogger.init false "AgentForge" "AgentForge.log" "error" emptyRegistry).file_handlers = [] ∧
    (BaseLogger.init false "AgentForge" "AgentForge.log" "error" emptyRegistry).console_handlers = [] ∧
    (BaseLogger.init false "AgentForge" "AgentForge.log" "error" emptyRegistry).nextId = 0 := by
  decide

/-- C6 (amended): when logging is globally disabled, constructing a channel
sets its effective severity to `logging.CRITICAL + 1` — above the highest
defined level — so no log call at any severity whatsoever produces file or
console output; however, the sink construction logic is skipped entirely:
no file or console sink is created or attached. -/
theorem C6_disabled_logging_is_noop (name file lvl : String) (rank : Nat) :
    (BaseLogger.init false name file lvl emptyRegistry).file_handlers = [] ∧
    (BaseLogger.init false name file lvl emptyRegistry).console_handlers = [] ∧
    alookup name (BaseLogger.init false name file lvl emptyRegistry).logger_levels =
      some (Logging.CRITICAL + 1) ∧
    emits (BaseLogger.init false name file lvl emptyRegistry) name rank = false := by
  refine ⟨rfl, rfl, ?_, ?_⟩
  · simp [BaseLogger.init, setLoggerLevel, dictInsert, alookup, emptyRegistry]
  · simp [BaseLogger.init, setLoggerLevel, dictInsert, alookup, emptyRegistry, emits]

/-- C10 (counterexample): with a configuration whose channel mapping is
exactly `{ModelIO}`, the name `"all"` is not in the mapping, yet `Logger.log`
does not raise a key-lookup error for it — `'all'` is special-cased to
broadcast to every configured channel. -/
theorem C10_counterexample :
    alookup "all" [("ModelIO", "debug")] = none ∧
    Logger.log [("ModelIO", "debug")] "Agent" "ping" "info" "all" =
      LogResult.routed [("ModelIO", LogOutcome.emitted "[Agent] ping" Logging.INFO false false)] ∧
    Logger.log [("ModelIO", "debug")] "Agent" "ping" "info" "all" ≠
      LogResult.keyError "all" := by
  decide

/-- C10 (amended): for every channel name other than the special broadcast
value `'all'` that is not present in the configured channel-to-severity
mapping — including the default channel name `'AgentForge'` when it is not
configured — `Logger.log` raises a key-lookup error instead of logging the
message or being a no-op. -/
theorem C10_unknown_channel_raises_keyError
    (filesConfig : List (String × String)) (caller msg level ch : String)
    (hall : ch ≠ "all") (hmem : alookup ch filesConfig = none) :
    Logger.log filesConfig caller msg level ch = LogResult.keyError ch := by
  unfold Logger.log
  simp [hall, hmem]

/-- C10 (witness): instantiation of the amended claim at the default channel
name `'AgentForge'` under a configuration that does not define it. -/
theorem C10_witness :
    ("AgentForge" ≠ "all") ∧
    alookup "AgentForge" [("ModelIO", "debug")] = none ∧
    Logger.log [("ModelIO", "debug")] "Agent" "ping" "info" "AgentForge" =
      LogResult.keyError "AgentForge" :=
  ⟨by decide, by decide,
   C10_unknown_channel_raises_keyError [("ModelIO", "debug")] "Agent" "ping" "info"
     "AgentForge" (by decide) (by decide)⟩

/-! ## Claims about the Agent Execution Pipeline -/

/-- Collecting the rendered prompts by a left fold of conditional appends is
the same as filtering the handled templates and rendering each, in order. -/
theorem render_fold_eq_filterMap (env : Env) (d : DataMap) :
    ∀ (ts : List Template) (acc : List String),
      ts.foldl (fun acc t =>
        match env.handleTemplate t d with
        | some tpl => acc ++ [env.renderTemplate tpl d]
        | none => acc) acc =
      acc ++ ts.filterMap fun t =>
        (env.handleTemplate t d).map fun tpl => env.renderTemplate tpl d := by
  intro ts
  induction ts with
  | nil => intro acc; simp
  | cons x xs ih =>
    intro acc
    rcases hx : env.handleTemplate x d with _ | tpl <;>
      simp [List.foldl_cons, List.filterMap_cons, hx, ih]

/-- C1: for every run from a well-formed provider load with a responsive
Language Model Client and no stage override, `run()` returns exactly the
text the client generated in that run, trimmed of leading and trailing
whitespace. -/
theorem C1_run_returns_trimmed_client_text (env : Env) (kwargs : List (String × DVal))
    (g : Option (List String) → List (String × String) → String)
    (hload : env.loadOk = true)
    (hresp : env.genText = fun p q => Except.ok (g p q)) :
    ∃ raw : String,
      (Agent.run env kwargs Agent.initState).1.llmText = some raw ∧
      (Agent.run env kwargs Agent.initState).2 = some (pyStrip raw) := by
  obtain ⟨raw, h1, _, h3, _, _, _, _⟩ := run_ok_spec env kwargs g hload hresp
  exact ⟨raw, h1, h3⟩

/-- C1 (witness): the healthy environment returns the client's padded text
stripped to `"hello world"`. -/
theorem C1_witness :
    demoEnv.loadOk = true ∧
    (∃ raw : String,
      (Agent.run demoEnv [] Agent.initState).1.llmText = some raw ∧
      (Agent.run demoEnv [] Agent.initState).2 = some (pyStrip raw)) ∧
    (Agent.run demoEnv [] Agent.initState).2 = some "hello world" := by
  refine ⟨rfl, ?_, by decide⟩
  exact C1_run_returns_trimmed_client_text demoEnv [] (fun _ _ => "  hello world \n") rfl rfl

/-- C2: when the client call faults, `run()` completes every stage without
raising, returns an absent result, and the persistence stage is still
attempted with an absent record; the fault is logged. -/
theorem C2_client_fault_swallowed (env : Env) (kwargs : List (String × DVal))
    (e : Option (List String) → List (String × String) → String)
    (hload : env.loadOk = true)
    (hfault : env.genText = fun p q => Except.error (e p q)) :
    (Agent.run env kwargs Agent.initState).2 = none ∧
    (Agent.run env kwargs Agent.initState).1.result = none ∧
    (Agent.run env kwargs Agent.initState).1.saveCalls = [none] ∧
    (Agent.run env kwargs Agent.initState).1.stagesRun =
      ["load_data", "process_data", "generate_prompt", "run_llm",
       "parse_result", "save_result", "build_output"] ∧
    "Error running LLM" ∈ (Agent.run env kwargs Agent.initState).1.errorLog := by
  obtain ⟨st1, heq, had, hpr, hres, hout, hllm, hsc, hsr, hel⟩ :=
    load_data_ok env kwargs Agent.initState hload
  unfold Agent.run
  rw [heq]
  dsimp only
  have had3 : (Agent.generate_prompt env (Agent.process_data st1)).agent_data =
      some env.agentData := by simp [had]
  obtain ⟨h1, h2, h3, h4⟩ := run_llm_err_fields env _ e hfault _ had3
  refine ⟨?_, ?_, ?_, ?_, ?_⟩
  · simp [h1]
  · simp [h1]
  · simp [h1, hsc, Agent.initState]
  · simp [hsr, Agent.initState]
  · have hmem : "Error running LLM" ∈
        (Agent.parse_result (Agent.run_llm env
          (Agent.generate_prompt env (Agent.process_data st1)))).errorLog := by
      simp [h4]
    simpa using save_result_errorLog_mono env _ _ hmem

/-- C2 (witness): the always-faulting client environment returns absent and
still records one persistence attempt carrying an absent record. -/
theorem C2_witness :
    demoEnvErr.loadOk = true ∧
    ((Agent.run demoEnvErr [] Agent.initState).2 = none ∧
     (Agent.run demoEnvErr [] Agent.initState).1.result = none ∧
     (Agent.run demoEnvErr [] Agent.initState).1.saveCalls = [none] ∧
     (Agent.run demoEnvErr [] Agent.initState).1.stagesRun =
       ["load_data", "process_data", "generate_prompt", "run_llm",
        "parse_result", "save_result", "build_output"] ∧
     "Error running LLM" ∈ (Agent.run demoEnvErr [] Agent.initState).1.errorLog) :=
  ⟨rfl, C2_client_fault_swallowed demoEnvErr [] (fun _ _ => "boom") rfl rfl⟩

/-- C3 (counterexample): when the agent-data reload sub-step faults, the
fault is caught and logged and the load outputs are cleared — but the
pipeline does NOT continue to the next stage: the persona sub-step then
faults on the cleared state, the run aborts after `load_data` (no further
stage is entered, no persistence attempt is made) and returns absent. -/
theorem C3_counterexample :
    (Agent.run demoEnvNoLoad [] Agent.initState).2 = none ∧
    (Agent.run demoEnvNoLoad [] Agent.initState).1.stagesRun = ["load_data"] ∧
    (Agent.run demoEnvNoLoad [] Agent.initState).1.saveCalls = [] ∧
    (Agent.run demoEnvNoLoad [] Agent.initState).1.errorLog =
      ["Error loading agent data", "Error running agent"] := by
  decide

/-- C3 (amended): a fault in the agent-data reload sub-step of `loadData` is
caught and logged, and that stage's output fields (`agent_data`, `data`) are
cleared to absent; but the subsequent persona sub-step then dereferences the
cleared `agent_data`, and this secondary fault escapes `loadData` and aborts
the whole run — later stages are not entered and `run()` returns absent. -/
theorem C3_load_fault_aborts_run (env : Env) (kwargs : List (String × DVal))
    (h : env.loadOk = false) :
    (Agent.run env kwargs Agent.initState).2 = none ∧
    (Agent.run env kwargs Agent.initState).1.agent_data = none ∧
    (Agent.run env kwargs Agent.initState).1.data = none ∧
    "Error loading agent data" ∈ (Agent.run env kwargs Agent.initState).1.errorLog ∧
    (Agent.run env kwargs Agent.initState).1.stagesRun = ["load_data"] := by
  unfold Agent.run Agent.load_data Agent.load_agent_data Agent.load_persona_data
  rw [if_neg (by simp [h])]
  dsimp only
  simp [Agent.initState]

/-- C3 (witness): instantiation of the amended claim at the environment with
a faulting provider. -/
theorem C3_witness :
    demoEnvNoLoad.loadOk = false ∧
    ((Agent.run demoEnvNoLoad [] Agent.initState).2 = none ∧
     (Agent.run demoEnvNoLoad [] Agent.initState).1.agent_data = none ∧
     (Agent.run demoEnvNoLoad [] Agent.initState).1.data = none ∧
     "Error loading agent data" ∈ (Agent.run demoEnvNoLoad [] Agent.initState).1.errorLog ∧
     (Agent.run demoEnvNoLoad [] Agent.initState).1.stagesRun = ["load_data"]) :=
  ⟨rfl, C3_load_fault_aborts_run demoEnvNoLoad [] rfl⟩

/-- C7: `generate_prompt` iterates the prompt templates in declaration
order, skips every template the renderer resolves to empty/absent, and
stores exactly the ordered sequence of rendered prompts of the kept
templates. -/
theorem C7_generate_prompt_filters_in_order (env : Env) (st : AgentState)
    (d : DataMap) (ps : List (String × Template))
    (hd : st.data = some d) (hp : alookup "prompts" d = some (DVal.vprompts ps)) :
    (Agent.generate_prompt env st).prompt =
      some ((ps.map Prod.snd).filterMap fun t =>
        (env.handleTemplate t d).map fun tpl => env.renderTemplate tpl d) := by
  unfold Agent.generate_prompt
  dsimp only
  rw [hd]
  dsimp only
  rw [hp]
  dsimp only
  rw [render_fold_eq_filterMap env d (ps.map Prod.snd) []]
  simp

/-- C7 (witness): the half-resolving scenario of the specification — two
templates, one resolving to the text `"A"`, one to absent — yields the
one-element prompt list. -/
theorem C7_witness :
    scenarioState.data = some scenarioData ∧
    alookup "prompts" scenarioData =
      some (DVal.vprompts [("one", "t1"), ("two", "t2")]) ∧
    (Agent.generate_prompt scenarioEnv scenarioState).prompt = some ["A"] := by
  refine ⟨rfl, by decide, ?_⟩
  rw [C7_generate_prompt_filters_in_order scenarioEnv scenarioState scenarioData
        [("one", "t1"), ("two", "t2")] rfl (by decide)]
  decide

/-- C8: when the Storage Backend faults during `save_result`, the failure is
logged and swallowed: `run()` still returns the client's generated text
trimmed, identical to what it returns with a healthy storage backend. -/
theorem C8_storage_fault_invisible (env : Env) (kwargs : List (String × DVal))
    (g : Option (List String) → List (String × String) → String)
    (hload : env.loadOk = true)
    (hresp : env.genText = fun p q => Except.ok (g p q))
    (hsave : env.saveOk = false) :
    ∃ raw : String,
      (Agent.run env kwargs Agent.initState).1.llmText = some raw ∧
      (Agent.run env kwargs Agent.initState).2 = some (pyStrip raw) ∧
      (Agent.run { env with saveOk := true } kwargs Agent.initState).2 =
        (Agent.run env kwargs Agent.initState).2 ∧
      "Error saving result" ∈ (Agent.run env kwargs Agent.initState).1.errorLog := by
  obtain ⟨raw, h1, _, h3, _, _, _, h7⟩ := run_ok_spec env kwargs g hload hresp
  exact ⟨raw, h1, h3, run_saveOk_output_eq env true kwargs Agent.initState, h7 hsave⟩

/-- C8 (witness): with the storage backend faulting, the run still returns
`"hello world"`, the same value as with a healthy backend, and the storage
fault appears in the error log. -/
theorem C8_witness :
    demoEnvNoSave.loadOk = true ∧ demoEnvNoSave.saveOk = false ∧
    (∃ raw : String,
      (Agent.run demoEnvNoSave [] Agent.initState).1.llmText = some raw ∧
      (Agent.run demoEnvNoSave [] Agent.initState).2 = some (pyStrip raw) ∧
      (Agent.run { demoEnvNoSave with saveOk := true } [] Agent.initState).2 =
        (Agent.run demoEnvNoSave [] Agent.initState).2 ∧
      "Error saving result" ∈ (Agent.run demoEnvNoSave [] Agent.initState).1.errorLog) ∧
    (Agent.run demoEnvNoSave [] Agent.initState).2 = some "hello world" := by
  refine ⟨rfl, rfl, ?_, by decide⟩
  exact C8_storage_fault_invisible demoEnvNoSave [] (fun _ _ => "  hello world \n") rfl rfl rfl

/-- C9 (counterexample): a run with a well-formed configuration leaves the
loaded configuration changed — `run_llm` writes the `agent_name` key into
the provider record's parameter map in place, so the record after the run
differs from the record the provider supplied. -/
theorem C9_counterexample :
    (Agent.run demoEnv [] Agent.initState).1.agent_data ≠ some demoEnv.agentData ∧
    (Agent.run demoEnv [] Agent.initState).1.agent_data =
      some { demoData with params := [("temperature", "0.8"), ("agent_name", "Agent")] } := by
  decide

/-- C9 (amended): during a run from a successful provider load, the loaded
configuration is left unchanged by every stage except `run_llm`, which
inserts the key `agent_name` (bound to the agent's name) into the
configuration's parameter map in place; no other part of the configuration
is modified. -/
theorem C9_run_llm_mutates_params (env : Env) (kwargs : List (String × DVal))
    (hload : env.loadOk = true) :
    (Agent.run env kwargs Agent.initState).1.agent_data =
      some { env.agentData with
             params := dictInsert "agent_name" env.agent_name env.agentData.params } := by
  obtain ⟨st1, heq, had, hpr, hres, hout, hllm, hsc, hsr, hel⟩ :=
    load_data_ok env kwargs Agent.initState hload
  unfold Agent.run
  rw [heq]
  dsimp only
  have had3 : (Agent.generate_prompt env (Agent.process_data st1)).agent_data =
      some env.agentData := by simp [had]
  simp [run_llm_agent_data_of_some env _ _ had3]

/-- C9 (witness): instantiation of the amended claim at the healthy
environment. -/
theorem C9_witness :
    demoEnv.loadOk = true ∧
    (Agent.run demoEnv [] Agent.initState).1.agent_data =
      some { demoEnv.agentData with
             params := dictInsert "agent_name" demoEnv.agent_name demoEnv.agentData.params } :=
  ⟨rfl, C9_run_llm_mutates_params demoEnv [] rfl⟩
